import Mathlib

/-!
Verification of the DMR probe core (`probes/probe/dmr.py`): the composite
request builder (`DmrProbe.createRequest`), the transport status handling
(`DmrProbe.sendRequest`, lines 130-138), the response classifier
(`DmrProbe.failUnusableResponse`, lines 140-160) and the per-test result
extraction (`DmrProbe.getTestInput`, lines 96-97).

Modelling decisions:
* JSON values are the inductive `Json`; objects are association lists of
  `String × Json` pairs, preserving key insertion order exactly as the
  Python code preserves it with `OrderedDict` (`object_pairs_hook`).
* Python truthiness (`not x`) is the boolean `truthy`.
* Python operations that can raise are modelled in `Except PyErr`:
  `d[k]` on a mapping is `dictGetItem` (`KeyError` when the key is
  absent, `TypeError` on a non-mapping), `.values()` is `dictValues`
  (`AttributeError` on a non-mapping), list indexing is `listGetItem`
  (`IndexError` out of range), and a JSON parse failure is `ValueError`.
* An HTTP response is reduced to the two observations the code makes of
  it: its `status_code` and the result of `response.json(...)`, which is
  deterministic, so repeated calls on the same response agree; a body
  that does not parse is `parsedBody = none` (every `.json()` call on it
  raises `ValueError`).
* Raising the diagnostic `Exception` built at line 160 versus raising
  some other Python exception are distinguished by the constructors of
  `ClassifyResult` / `SendResult`.
-/

/-- A JSON value as parsed by `response.json(object_pairs_hook = OrderedDict)`:
objects keep their key insertion order as an association list. -/
inductive Json where
  | null : Json
  | bool (b : Bool) : Json
  | num (n : Int) : Json
  | str (s : String) : Json
  | arr (elems : List Json) : Json
  | obj (pairs : List (String × Json)) : Json

/-- Python truthiness of a JSON value: `None`, `False`, `0`, `""`, `[]`
and `{}` are falsy, everything else is truthy. -/
def truthy : Json → Bool
  | Json.null => false
  | Json.bool b => b
  | Json.num n => n != 0
  | Json.str s => s != ""
  | Json.arr elems => !elems.isEmpty
  | Json.obj pairs => !pairs.isEmpty

/-- The Python exceptions the probe code can raise besides the diagnostic
`Exception` of line 160. -/
inductive PyErr where
  | keyError (k : String) : PyErr
  | typeError : PyErr
  | indexError : PyErr
  | valueError : PyErr
  | attributeError : PyErr
deriving DecidableEq

/-- Python `d[k]` on a parsed JSON value: first binding of `k` in a
mapping, `KeyError` when absent, `TypeError` when `d` is not a mapping. -/
def dictGetItem (d : Json) (k : String) : Except PyErr Json :=
  match d with
  | Json.obj pairs =>
    match List.lookup k pairs with
    | some v => Except.ok v
    | none => Except.error (PyErr.keyError k)
  | _ => Except.error PyErr.typeError

/-- Python `list(d.values())` on a parsed JSON value: the values of a
mapping in key insertion order, `AttributeError` otherwise. -/
def dictValues (d : Json) : Except PyErr (List Json) :=
  match d with
  | Json.obj pairs => Except.ok (pairs.map Prod.snd)
  | _ => Except.error PyErr.attributeError

/-- Python `xs[i]` on a list: `IndexError` when out of range. -/
def listGetItem (xs : List Json) (i : Nat) : Except PyErr Json :=
  match xs.get? i with
  | some v => Except.ok v
  | none => Except.error PyErr.indexError

/-- A test as seen by the probe core (`probe.api.Test`): the core only
consumes its `getQuery()` capability, the query payload is opaque. -/
structure Test where
  getQuery : Json

/-- The two observations `sendRequest` / `failUnusableResponse` make of
the HTTP response: its status code, and the result of `response.json(...)`
(`none` models a body on which every `.json()` call raises `ValueError`). -/
structure HttpResponse where
  status_code : Nat
  parsedBody : Option Json

namespace DmrProbe

/-- `DmrProbe.getTestInput` (dmr.py lines 96-97):
`list(results["result"].values())[testIndex]`. -/
def getTestInput (results : Json) (testIndex : Nat) : Except PyErr Json :=
  match dictGetItem results "result" with
  | Except.error e => Except.error e
  | Except.ok r =>
    match dictValues r with
    | Except.error e => Except.error e
    | Except.ok vs => listGetItem vs testIndex

/-- `DmrProbe.createRequest` (dmr.py lines 99-108): start from an empty
step list, append each test's query in order, and wrap the steps in the
fixed composite envelope. Pure: it only reads each test's query. -/
def createRequest (tests : List Test) : Json :=
  let steps := tests.foldl (fun acc test => acc ++ [test.getQuery]) []
  Json.obj
    [ ("operation", Json.str "composite")
    , ("address", Json.arr [])
    , ("json.pretty", Json.num 1)
    , ("steps", Json.arr steps) ]

/-- Outcome of `DmrProbe.failUnusableResponse`: it returns normally
(`usable`), raises the diagnostic `Exception` of line 160 carrying the
status code, url, request and parsed body (`diagError`), or raises some
other Python exception (`pyExc`). -/
inductive ClassifyResult where
  | usable : ClassifyResult
  | diagError (status_code : Nat) (url : String) (request : Json) (body : Json) : ClassifyResult
  | pyExc (e : PyErr) : ClassifyResult

/-- Whether a `ClassifyResult` is the diagnostic `Exception` of line 160. -/
def ClassifyResult.isDiagError : ClassifyResult → Bool
  | ClassifyResult.diagError _ _ _ _ => true
  | _ => false

/-- The loop of dmr.py lines 153-156: for each test by position, look up
`stepResults[index]` (raising `IndexError` past the end) and stop with
`unusable = True` at the first falsy entry; `ok false` means the loop
completed with `unusable` still `False`. -/
def stepResultsLoop : List Json → List Test → Except PyErr Bool
  | _, [] => Except.ok false
  | [], _ :: _ => Except.error PyErr.indexError
  | v :: vrest, _ :: trest =>
    if truthy v then stepResultsLoop vrest trest else Except.ok true

/-- Python `respDict["outcome"] != "failed"` negated: only the exact
string `"failed"` compares equal to `"failed"`. -/
def isFailedOutcome : Json → Bool
  | Json.str s => s == "failed"
  | _ => false

/-- `DmrProbe.failUnusableResponse` (dmr.py lines 140-160). `respDict` is
the parse attempt of the body (`none` after the caught `ValueError`). The
`unusable` flag is the short-circuit chain of line 147 followed by the
step loop of lines 152-156; when it ends up true, line 160 re-invokes
`response.json(...)` while building the `Exception` message, so an
unparseable body raises `ValueError` there instead of the diagnostic. -/
def failUnusableResponse (response : HttpResponse) (request : Json) (url : String)
    (tests : List Test) : ClassifyResult :=
  let respDict := response.parsedBody
  let raiseUnusable : ClassifyResult :=
    match respDict with
    | none => ClassifyResult.pyExc PyErr.valueError
    | some body => ClassifyResult.diagError response.status_code url request body
  match respDict with
  | none => raiseUnusable
  | some d =>
    if !truthy d then raiseUnusable
    else
      match dictGetItem d "outcome" with
      | Except.error e => ClassifyResult.pyExc e
      | Except.ok outcome =>
        if !truthy outcome then raiseUnusable
        else if !isFailedOutcome outcome then raiseUnusable
        else
          match dictGetItem d "result" with
          | Except.error e => ClassifyResult.pyExc e
          | Except.ok result =>
            if !truthy result then raiseUnusable
            else
              match dictValues result with
              | Except.error e => ClassifyResult.pyExc e
              | Except.ok stepResults =>
                match stepResultsLoop stepResults tests with
                | Except.error e => ClassifyResult.pyExc e
                | Except.ok unusable =>
                  if unusable then raiseUnusable else ClassifyResult.usable

/-- The guard of dmr.py line 130: `failUnusableResponse` runs exactly when
the status code is neither 200 nor 403. -/
def statusTriggersUnusableCheck (status_code : Nat) : Bool :=
  status_code != 200 && status_code != 403

/-- Outcome of `DmrProbe.sendRequest` after the response arrived: the
parsed body is returned (`parsed`), the diagnostic `Exception` of line
160 propagates (`diagError`), or another Python exception propagates
(`pyExc`). -/
inductive SendResult where
  | parsed (body : Json) : SendResult
  | diagError (status_code : Nat) (url : String) (request : Json) (body : Json) : SendResult
  | pyExc (e : PyErr) : SendResult

/-- `DmrProbe.sendRequest` (dmr.py lines 130-138), from the response on:
when the status code is neither 200 nor 403 it first runs
`failUnusableResponse` (propagating whatever that raises), then in every
non-raising case returns `response.json(object_pairs_hook = OrderedDict)`,
which raises `ValueError` on an unparseable body. -/
def sendRequest (response : HttpResponse) (request : Json) (url : String)
    (tests : List Test) : SendResult :=
  let returnJson : SendResult :=
    match response.parsedBody with
    | some body => SendResult.parsed body
    | none => SendResult.pyExc PyErr.valueError
  if statusTriggersUnusableCheck response.status_code then
    match failUnusableResponse response request url tests with
    | ClassifyResult.usable => returnJson
    | ClassifyResult.diagError c u r b => SendResult.diagError c u r b
    | ClassifyResult.pyExc e => SendResult.pyExc e
  else returnJson

/-- Example parsed reply: outcome `"failed"` with two truthy step results. -/
def exampleReplyTwo : Json :=
  Json.obj
    [ ("outcome", Json.str "failed")
    , ("result", Json.obj [("step-1", Json.num 1), ("step-2", Json.num 2)]) ]

/-- Example parsed reply: outcome `"failed"` with one truthy step result. -/
def exampleReplyOne : Json :=
  Json.obj
    [ ("outcome", Json.str "failed")
    , ("result", Json.obj [("step-1", Json.num 1)]) ]

/-- Example parsed reply: outcome `"failed"`, second step result falsy. -/
def exampleReplyFalsyStep : Json :=
  Json.obj
    [ ("outcome", Json.str "failed")
    , ("result", Json.obj [("step-1", Json.num 1), ("step-2", Json.num 0)]) ]

end DmrProbe

namespace DmrProbe

/-- A successful key lookup forces the value to be a nonempty mapping,
hence truthy. -/
lemma dictGetItem_ok_truthy {d : Json} {k : String} {v : Json}
    (h : dictGetItem d k = Except.ok v) : truthy d = true := by
  cases d with
  | obj pairs =>
    cases pairs with
    | nil => simp [dictGetItem, List.lookup] at h
    | cons p ps => simp [truthy]
  | null => simp [dictGetItem] at h
  | bool b => simp [dictGetItem] at h
  | num n => simp [dictGetItem] at h
  | str s => simp [dictGetItem] at h
  | arr elems => simp [dictGetItem] at h

/-- The step loop finishes with `unusable = False` exactly when the step
results cover every test position with a truthy value. -/
lemma stepResultsLoop_ok_false_iff (vs : List Json) (tests : List Test) :
    stepResultsLoop vs tests = Except.ok false ↔
      (tests.length ≤ vs.length ∧
        ∀ i, i < tests.length → ∃ v, vs.get? i = some v ∧ truthy v = true) := by
  induction tests generalizing vs with
  | nil => simp [stepResultsLoop]
  | cons t trest ih =>
    cases vs with
    | nil =>
      simp only [stepResultsLoop, List.length_cons, List.length_nil]
      constructor
      · intro h; exact absurd h (by simp)
      · rintro ⟨hlen, -⟩; omega
    | cons v vrest =>
      by_cases hv : truthy v = true
      · simp only [stepResultsLoop, hv, if_true, ih, List.length_cons]
        constructor
        · rintro ⟨hlen, hall⟩
          refine ⟨by omega, ?_⟩
          intro i hi
          cases i with
          | zero => exact ⟨v, rfl, hv⟩
          | succ j => exact hall j (by omega)
        · rintro ⟨hlen, hall⟩
          refine ⟨by omega, ?_⟩
          intro i hi
          obtain ⟨w, hw, htw⟩ := hall (i + 1) (by omega)
          exact ⟨w, by simpa using hw, htw⟩
      · have hv2 : truthy v = false := by
          cases hveq : truthy v
          · rfl
          · exact absurd hveq hv
        simp only [stepResultsLoop, hv2, Bool.false_eq_true, if_false, List.length_cons]
        constructor
        · intro h; exact absurd h (by simp)
        · rintro ⟨hlen, hall⟩
          obtain ⟨w, hw, htw⟩ := hall 0 (by omega)
          simp only [List.get?_cons_zero, Option.some.injEq] at hw
          subst hw
          rw [htw] at hv2
          exact absurd hv2 (by simp)

/-- If the first non-truthy step result sits at a valid test position,
the loop stops there with `unusable = True`. -/
lemma stepResultsLoop_first_falsy {vs : List Json} {tests : List Test} {j : Nat} {v : Json}
    (hj : j < tests.length) (hv : vs.get? j = some v) (hfalsy : truthy v = false)
    (hprev : ∀ k w, k < j → vs.get? k = some w → truthy w = true) :
    stepResultsLoop vs tests = Except.ok true := by
  induction j generalizing vs tests with
  | zero =>
    cases tests with
    | nil => exact absurd hj (by simp)
    | cons t trest =>
      cases vs with
      | nil => simp at hv
      | cons v0 vrest =>
        simp only [List.get?_cons_zero, Option.some.injEq] at hv
        subst hv
        simp [stepResultsLoop, hfalsy]
  | succ j ih =>
    cases tests with
    | nil => exact absurd hj (by simp)
    | cons t trest =>
      cases vs with
      | nil => simp at hv
      | cons v0 vrest =>
        have h0 : truthy v0 = true := hprev 0 v0 (Nat.succ_pos j) (by simp)
        simp only [stepResultsLoop, h0, if_true]
        refine ih ?_ (by simpa using hv) ?_
        · exact Nat.lt_of_succ_lt_succ (by simpa using hj)
        · intro k w hk hw
          exact hprev (k + 1) w (Nat.succ_lt_succ hk) (by simpa using hw)

/-- If the step results run out before the tests do (all present ones
truthy), the loop raises `IndexError`. -/
lemma stepResultsLoop_short {vs : List Json} {tests : List Test}
    (hlen : vs.length < tests.length) (hall : ∀ v ∈ vs, truthy v = true) :
    stepResultsLoop vs tests = Except.error PyErr.indexError := by
  induction vs generalizing tests with
  | nil =>
    cases tests with
    | nil => simp at hlen
    | cons t trest => rfl
  | cons v vrest ih =>
    cases tests with
    | nil => simp at hlen
    | cons t trest =>
      have hv : truthy v = true := hall v (by simp)
      simp only [stepResultsLoop, hv, if_true]
      refine ih ?_ (fun w hw => hall w (by simp [hw]))
      exact Nat.lt_of_succ_lt_succ (by simpa using hlen)

/-- On the `outcome = "failed"`, truthy-`result`-mapping path, the
classifier is determined by the step loop: a loop exception propagates,
`unusable = True` raises the diagnostic, `unusable = False` returns. -/
lemma failUnusableResponse_failedPath (status : Nat) (url : String) (request : Json)
    (tests : List Test) (d : Json) (rkvs : List (String × Json))
    (hout : dictGetItem d "outcome" = Except.ok (Json.str "failed"))
    (hres : dictGetItem d "result" = Except.ok (Json.obj rkvs))
    (hne : truthy (Json.obj rkvs) = true) :
    failUnusableResponse ⟨status, some d⟩ request url tests =
      (match stepResultsLoop (rkvs.map Prod.snd) tests with
        | Except.error e => ClassifyResult.pyExc e
        | Except.ok true => ClassifyResult.diagError status url request d
        | Except.ok false => ClassifyResult.usable) := by
  have htd : truthy d = true := dictGetItem_ok_truthy hout
  have h1 : truthy (Json.str "failed") = true := rfl
  have h2 : isFailedOutcome (Json.str "failed") = true := rfl
  simp only [failUnusableResponse, htd, hout, hres, hne, h1, h2, dictValues,
    Bool.not_true, Bool.false_eq_true, if_false]
  cases stepResultsLoop (List.map Prod.snd rkvs) tests with
  | error e => rfl
  | ok b => cases b <;> rfl

/-- With no parseable body, line 160 re-invokes `response.json(...)` while
building the diagnostic message, so `ValueError` is raised instead. -/
lemma failUnusableResponse_none (status : Nat) (url : String) (request : Json)
    (tests : List Test) :
    failUnusableResponse ⟨status, none⟩ request url tests =
      ClassifyResult.pyExc PyErr.valueError := rfl

/-- A parsed but falsy (empty) body raises the diagnostic of line 160. -/
lemma failUnusableResponse_not_truthy (status : Nat) (url : String) (request : Json)
    (tests : List Test) {d : Json} (h : truthy d = false) :
    failUnusableResponse ⟨status, some d⟩ request url tests =
      ClassifyResult.diagError status url request d := by
  simp only [failUnusableResponse, h, Bool.not_false, if_true]

/-- An exception from the `respDict["outcome"]` lookup of line 147
propagates (in particular `KeyError` when `outcome` is absent). -/
lemma failUnusableResponse_outcome_exc (status : Nat) (url : String) (request : Json)
    (tests : List Test) {d : Json} {e : PyErr} (htd : truthy d = true)
    (h : dictGetItem d "outcome" = Except.error e) :
    failUnusableResponse ⟨status, some d⟩ request url tests =
      ClassifyResult.pyExc e := by
  simp only [failUnusableResponse, htd, h, Bool.not_true, Bool.false_eq_true, if_false]

/-- A present-but-falsy `outcome` raises the diagnostic of line 160. -/
lemma failUnusableResponse_outcome_falsy (status : Nat) (url : String) (request : Json)
    (tests : List Test) {d v : Json}
    (hout : dictGetItem d "outcome" = Except.ok v) (hv : truthy v = false) :
    failUnusableResponse ⟨status, some d⟩ request url tests =
      ClassifyResult.diagError status url request d := by
  have htd : truthy d = true := dictGetItem_ok_truthy hout
  simp only [failUnusableResponse, htd, hout, hv, Bool.not_true, Bool.not_false,
    Bool.false_eq_true, if_false, if_true]

/-- A truthy `outcome` other than the string `"failed"` raises the
diagnostic of line 160. -/
lemma failUnusableResponse_outcome_not_failed (status : Nat) (url : String) (request : Json)
    (tests : List Test) {d v : Json}
    (hout : dictGetItem d "outcome" = Except.ok v) (hv : truthy v = true)
    (hnf : isFailedOutcome v = false) :
    failUnusableResponse ⟨status, some d⟩ request url tests =
      ClassifyResult.diagError status url request d := by
  have htd : truthy d = true := dictGetItem_ok_truthy hout
  simp only [failUnusableResponse, htd, hout, hv, hnf, Bool.not_true, Bool.not_false,
    Bool.false_eq_true, if_false, if_true]

/-- With `outcome = "failed"`, an exception from the `respDict["result"]`
lookup of line 147 propagates (in particular `KeyError` when `result` is
absent). -/
lemma failUnusableResponse_result_exc (status : Nat) (url : String) (request : Json)
    (tests : List Test) {d : Json} {e : PyErr}
    (hout : dictGetItem d "outcome" = Except.ok (Json.str "failed"))
    (h : dictGetItem d "result" = Except.error e) :
    failUnusableResponse ⟨status, some d⟩ request url tests =
      ClassifyResult.pyExc e := by
  have htd : truthy d = true := dictGetItem_ok_truthy hout
  have h1 : truthy (Json.str "failed") = true := rfl
  have h2 : isFailedOutcome (Json.str "failed") = true := rfl
  simp only [failUnusableResponse, htd, hout, h, h1, h2, Bool.not_true,
    Bool.false_eq_true, if_false]

/-- With `outcome = "failed"`, a present-but-falsy `result` raises the
diagnostic of line 160. -/
lemma failUnusableResponse_result_falsy (status : Nat) (url : String) (request : Json)
    (tests : List Test) {d r : Json}
    (hout : dictGetItem d "outcome" = Except.ok (Json.str "failed"))
    (hres : dictGetItem d "result" = Except.ok r) (hr : truthy r = false) :
    failUnusableResponse ⟨status, some d⟩ request url tests =
      ClassifyResult.diagError status url request d := by
  have htd : truthy d = true := dictGetItem_ok_truthy hout
  have h1 : truthy (Json.str "failed") = true := rfl
  have h2 : isFailedOutcome (Json.str "failed") = true := rfl
  simp only [failUnusableResponse, htd, hout, hres, hr, h1, h2, Bool.not_true,
    Bool.not_false, Bool.false_eq_true, if_false, if_true]

/-- `createRequest` builds its step list by successive append, which is
the map of `getQuery` over the tests in order. -/
lemma createRequest_foldl (tests : List Test) :
    tests.foldl (fun acc test => acc ++ [test.getQuery]) [] =
      tests.map Test.getQuery := by
  have hgen : ∀ (l : List Test) (acc : List Json),
      l.foldl (fun acc test => acc ++ [test.getQuery]) acc =
        acc ++ l.map Test.getQuery := by
    intro l
    induction l with
    | nil => intro acc; simp
    | cons t rest ih => intro acc; simp [List.foldl_cons, ih]
  simpa using hgen tests []

/-- C7: for every ordered test sequence (including the empty one),
`createRequest` produces exactly the composite envelope with
`operation = "composite"`, `address = []`, `json.pretty = 1` and a steps
field that is the tests' `getQuery()` results in submission order (zero
steps for the empty sequence); being a pure function of the tests, it
performs no other effect. -/
theorem createRequest_steps_in_order (tests : List Test) :
    createRequest tests =
      Json.obj
        [ ("operation", Json.str "composite")
        , ("address", Json.arr [])
        , ("json.pretty", Json.num 1)
        , ("steps", Json.arr (tests.map Test.getQuery)) ] := by
  simp only [createRequest, createRequest_foldl]

/-- C8: two `createRequest` calls on test sequences whose `getQuery()`
values agree pointwise (in particular, the same call repeated) produce
structurally identical requests, same step order and content. -/
theorem createRequest_same_queries_equal (tests1 tests2 : List Test)
    (h : tests1.map Test.getQuery = tests2.map Test.getQuery) :
    createRequest tests1 = createRequest tests2 := by
  simp only [createRequest, createRequest_foldl, h]

/-- Witness for C8 at a concrete one-test sequence. -/
theorem createRequest_same_queries_equal_witness :
    createRequest [⟨Json.num 7⟩] = createRequest [⟨Json.num 7⟩] :=
  createRequest_same_queries_equal [⟨Json.num 7⟩] [⟨Json.num 7⟩] rfl

/-- C10: with an empty test sequence, any parsed reply with outcome
exactly `"failed"` and a truthy (nonempty) result mapping is classified
usable: `failUnusableResponse` returns without raising, because the
per-step loop inspects zero entries. -/
theorem failUnusableResponse_no_tests_usable (status : Nat) (url : String)
    (request : Json) (d : Json) (rkvs : List (String × Json))
    (hout : dictGetItem d "outcome" = Except.ok (Json.str "failed"))
    (hres : dictGetItem d "result" = Except.ok (Json.obj rkvs))
    (hne : truthy (Json.obj rkvs) = true) :
    failUnusableResponse ⟨status, some d⟩ request url [] = ClassifyResult.usable := by
  rw [failUnusableResponse_failedPath status url request [] d rkvs hout hres hne]
  simp [stepResultsLoop]

/-- Witness for C10 at a concrete reply with two result entries. -/
theorem failUnusableResponse_no_tests_usable_witness :
    failUnusableResponse ⟨500, some exampleReplyTwo⟩ Json.null "u" [] =
      ClassifyResult.usable :=
  failUnusableResponse_no_tests_usable 500 "u" Json.null exampleReplyTwo
    [("step-1", Json.num 1), ("step-2", Json.num 2)] rfl rfl rfl

/-- C3: on a 200 or 403 status code, `sendRequest` returns the parsed
body (an order-preserving mapping) directly, and the guard of line 130
that invokes `failUnusableResponse` is off for that status code. -/
theorem sendRequest_ok_status_returns_parsed (response : HttpResponse) (request : Json)
    (url : String) (tests : List Test) (body : Json)
    (hstatus : response.status_code = 200 ∨ response.status_code = 403)
    (hbody : response.parsedBody = some body) :
    sendRequest response request url tests = SendResult.parsed body ∧
      statusTriggersUnusableCheck response.status_code = false := by
  have hcheck : statusTriggersUnusableCheck response.status_code = false := by
    rcases hstatus with h | h <;> simp [statusTriggersUnusableCheck, h]
  refine ⟨?_, hcheck⟩
  simp [sendRequest, hcheck, hbody]

/-- Witness for C3 at a concrete 200 response. -/
theorem sendRequest_ok_status_returns_parsed_witness :
    sendRequest ⟨200, some exampleReplyTwo⟩ Json.null "u" [] =
        SendResult.parsed exampleReplyTwo ∧
      statusTriggersUnusableCheck 200 = false :=
  sendRequest_ok_status_returns_parsed ⟨200, some exampleReplyTwo⟩ Json.null "u" []
    exampleReplyTwo (Or.inl rfl) rfl

/-- C9: on a 200 or 403 status code whose body does not parse,
`sendRequest` propagates the raw `ValueError` of the final
`response.json(...)` call; the guard of line 130 is off, so the
unusable-classification path never runs for such a response. -/
theorem sendRequest_ok_status_noparse_propagates (response : HttpResponse) (request : Json)
    (url : String) (tests : List Test)
    (hstatus : response.status_code = 200 ∨ response.status_code = 403)
    (hbody : response.parsedBody = none) :
    sendRequest response request url tests = SendResult.pyExc PyErr.valueError ∧
      statusTriggersUnusableCheck response.status_code = false := by
  have hcheck : statusTriggersUnusableCheck response.status_code = false := by
    rcases hstatus with h | h <;> simp [statusTriggersUnusableCheck, h]
  refine ⟨?_, hcheck⟩
  simp [sendRequest, hcheck, hbody]

/-- Witness for C9 at a concrete 403 response with unparseable body. -/
theorem sendRequest_ok_status_noparse_propagates_witness :
    sendRequest ⟨403, none⟩ Json.null "u" [] = SendResult.pyExc PyErr.valueError ∧
      statusTriggersUnusableCheck 403 = false :=
  sendRequest_ok_status_noparse_propagates ⟨403, none⟩ Json.null "u" []
    (Or.inr rfl) rfl

/-- C4 (code bug): on a status code outside the known-good set with an
unparseable body, line 160 re-invokes `response.json(...)` while building
the diagnostic message, so the raised error is the parse `ValueError`,
never the diagnostic `Exception` carrying a no-parse indication. -/
theorem sendRequest_noparse_bad_status_valueError (status : Nat) (request : Json)
    (url : String) (tests : List Test)
    (h : statusTriggersUnusableCheck status = true) :
    sendRequest ⟨status, none⟩ request url tests = SendResult.pyExc PyErr.valueError ∧
      (failUnusableResponse ⟨status, none⟩ request url tests).isDiagError = false := by
  constructor
  · simp [sendRequest, h, failUnusableResponse_none]
  · rw [failUnusableResponse_none]
    rfl

/-- Witness for C4 at status code 500 with unparseable body. -/
theorem sendRequest_noparse_bad_status_valueError_witness :
    sendRequest ⟨500, none⟩ Json.null "u" [] = SendResult.pyExc PyErr.valueError ∧
      (failUnusableResponse ⟨500, none⟩ Json.null "u" []).isDiagError = false :=
  sendRequest_noparse_bad_status_valueError 500 Json.null "u" [] rfl

/-- C1: on a parsed reply with outcome exactly `"failed"` and a truthy
result mapping whose first N positional values (key insertion order) are
all truthy, `failUnusableResponse` returns without raising, and
`getTestInput` delivers each test the value at its submission position in
the result mapping, in submission order. -/
theorem failUnusableResponse_all_truthy_usable (status : Nat) (url : String)
    (request : Json) (tests : List Test) (d : Json) (rkvs : List (String × Json))
    (hout : dictGetItem d "outcome" = Except.ok (Json.str "failed"))
    (hres : dictGetItem d "result" = Except.ok (Json.obj rkvs))
    (hne : truthy (Json.obj rkvs) = true)
    (hall : ∀ i, i < tests.length →
      ∃ v, (rkvs.map Prod.snd).get? i = some v ∧ truthy v = true) :
    failUnusableResponse ⟨status, some d⟩ request url tests = ClassifyResult.usable ∧
      ∀ i, i < tests.length → ∃ v, (rkvs.map Prod.snd).get? i = some v ∧
        getTestInput d i = Except.ok v := by
  have hlen : tests.length ≤ (rkvs.map Prod.snd).length := by
    cases Nat.eq_zero_or_pos tests.length with
    | inl h => omega
    | inr h =>
      obtain ⟨v, hv, -⟩ := hall (tests.length - 1) (by omega)
      obtain ⟨hlt, -⟩ := List.get?_eq_some.mp hv
      omega
  constructor
  · rw [failUnusableResponse_failedPath status url request tests d rkvs hout hres hne]
    rw [(stepResultsLoop_ok_false_iff _ _).mpr ⟨hlen, hall⟩]
  · intro i hi
    obtain ⟨v, hv, -⟩ := hall i hi
    refine ⟨v, hv, ?_⟩
    simp only [getTestInput, hres, dictValues, listGetItem,
      List.get?_eq_getElem?, List.getElem?_map] at hv ⊢
    rw [hv]

/-- Witness for C1: two tests against a reply with two truthy entries. -/
theorem failUnusableResponse_all_truthy_usable_witness :
    failUnusableResponse ⟨500, some exampleReplyTwo⟩ Json.null "u"
        [⟨Json.null⟩, ⟨Json.null⟩] = ClassifyResult.usable ∧
      ∀ i, i < ([⟨Json.null⟩, ⟨Json.null⟩] : List Test).length →
        ∃ v, (([("step-1", Json.num 1), ("step-2", Json.num 2)] :
              List (String × Json)).map Prod.snd).get? i = some v ∧
          getTestInput exampleReplyTwo i = Except.ok v :=
  failUnusableResponse_all_truthy_usable 500 "u" Json.null [⟨Json.null⟩, ⟨Json.null⟩]
    exampleReplyTwo [("step-1", Json.num 1), ("step-2", Json.num 2)] rfl rfl rfl
    (by
      intro i hi
      simp only [List.length_cons, List.length_nil] at hi
      interval_cases i
      · exact ⟨Json.num 1, rfl, rfl⟩
      · exact ⟨Json.num 2, rfl, rfl⟩)

/-- C2 counterexample: two submitted tests, outcome `"failed"`, result
mapping with a single (truthy) entry: the classifier raises `IndexError`
at line 154, not the fatal diagnostic of line 160. -/
theorem failUnusableResponse_short_result_cex :
    failUnusableResponse ⟨500, some exampleReplyOne⟩ Json.null "u"
        [⟨Json.null⟩, ⟨Json.null⟩] = ClassifyResult.pyExc PyErr.indexError ∧
      (failUnusableResponse ⟨500, some exampleReplyOne⟩ Json.null "u"
        [⟨Json.null⟩, ⟨Json.null⟩]).isDiagError = false :=
  ⟨rfl, rfl⟩

/-- C2 (amended): with outcome `"failed"` and a truthy result mapping,
walking the first N positional entries, a present-but-falsy entry (all
earlier entries truthy) makes the classifier raise the fatal diagnostic
of line 160; if instead the mapping runs out of entries before position N
(all its entries truthy), the classifier raises `IndexError` rather than
the diagnostic. In neither case are per-step results delivered. -/
theorem failUnusableResponse_missing_or_falsy_entry (status : Nat) (url : String)
    (request : Json) (tests : List Test) (d : Json) (rkvs : List (String × Json))
    (hout : dictGetItem d "outcome" = Except.ok (Json.str "failed"))
    (hres : dictGetItem d "result" = Except.ok (Json.obj rkvs))
    (hne : truthy (Json.obj rkvs) = true) :
    (∀ j v, j < tests.length → (rkvs.map Prod.snd).get? j = some v →
        truthy v = false →
        (∀ k w, k < j → (rkvs.map Prod.snd).get? k = some w → truthy w = true) →
        failUnusableResponse ⟨status, some d⟩ request url tests =
          ClassifyResult.diagError status url request d)
    ∧ (rkvs.length < tests.length →
        (∀ v ∈ rkvs.map Prod.snd, truthy v = true) →
        failUnusableResponse ⟨status, some d⟩ request url tests =
          ClassifyResult.pyExc PyErr.indexError) := by
  rw [failUnusableResponse_failedPath status url request tests d rkvs hout hres hne]
  constructor
  · intro j v hj hv hfalsy hprev
    rw [stepResultsLoop_first_falsy hj hv hfalsy hprev]
  · intro hlen hall
    rw [stepResultsLoop_short (by simpa using hlen) hall]

/-- Witness for C2 at a reply whose second step result is falsy. -/
theorem failUnusableResponse_missing_or_falsy_entry_witness :
    failUnusableResponse ⟨500, some exampleReplyFalsyStep⟩ Json.null "u"
        [⟨Json.null⟩, ⟨Json.null⟩] =
      ClassifyResult.diagError 500 "u" Json.null exampleReplyFalsyStep :=
  (failUnusableResponse_missing_or_falsy_entry 500 "u" Json.null
      [⟨Json.null⟩, ⟨Json.null⟩] exampleReplyFalsyStep
      [("step-1", Json.num 1), ("step-2", Json.num 0)] rfl rfl rfl).1
    1 (Json.num 0) (by decide) rfl rfl
    (by
      intro k w hk hw
      have hk0 : k = 0 := by omega
      subst hk0
      simp only [List.map_cons, List.get?_cons_zero, Option.some.injEq] at hw
      subst hw
      rfl)

/-- C5 counterexample: a nonempty parsed reply without an `outcome` key
makes line 147 raise `KeyError`, not the fatal diagnostic of line 160. -/
theorem failUnusableResponse_missing_outcome_cex :
    failUnusableResponse ⟨500, some (Json.obj [("other", Json.num 1)])⟩ Json.null "u" [] =
        ClassifyResult.pyExc (PyErr.keyError "outcome") ∧
      (failUnusableResponse ⟨500, some (Json.obj [("other", Json.num 1)])⟩
          Json.null "u" []).isDiagError = false :=
  ⟨rfl, rfl⟩

/-- C5 (amended): on the detailed check, an empty parsed value, a
present-but-falsy `outcome`, a truthy `outcome` other than `"failed"`,
or (with outcome `"failed"`) a present-but-falsy `result` each raise the
fatal diagnostic of line 160; but a missing `outcome` key — or a missing
`result` key when outcome is `"failed"` — raises `KeyError` instead, and
an unparseable body raises the re-parse `ValueError` of line 160 instead. -/
theorem failUnusableResponse_malformed_reply_cases (status : Nat) (url : String)
    (request : Json) (tests : List Test) (d : Json) :
    (failUnusableResponse ⟨status, none⟩ request url tests =
        ClassifyResult.pyExc PyErr.valueError)
    ∧ (truthy d = false →
        failUnusableResponse ⟨status, some d⟩ request url tests =
          ClassifyResult.diagError status url request d)
    ∧ (truthy d = true →
        dictGetItem d "outcome" = Except.error (PyErr.keyError "outcome") →
        failUnusableResponse ⟨status, some d⟩ request url tests =
          ClassifyResult.pyExc (PyErr.keyError "outcome"))
    ∧ (∀ v, dictGetItem d "outcome" = Except.ok v → truthy v = false →
        failUnusableResponse ⟨status, some d⟩ request url tests =
          ClassifyResult.diagError status url request d)
    ∧ (∀ v, dictGetItem d "outcome" = Except.ok v → truthy v = true →
        isFailedOutcome v = false →
        failUnusableResponse ⟨status, some d⟩ request url tests =
          ClassifyResult.diagError status url request d)
    ∧ (dictGetItem d "outcome" = Except.ok (Json.str "failed") →
        dictGetItem d "result" = Except.error (PyErr.keyError "result") →
        failUnusableResponse ⟨status, some d⟩ request url tests =
          ClassifyResult.pyExc (PyErr.keyError "result"))
    ∧ (∀ r, dictGetItem d "outcome" = Except.ok (Json.str "failed") →
        dictGetItem d "result" = Except.ok r → truthy r = false →
        failUnusableResponse ⟨status, some d⟩ request url tests =
          ClassifyResult.diagError status url request d) :=
  ⟨failUnusableResponse_none status url request tests,
   fun h => failUnusableResponse_not_truthy status url request tests h,
   fun htd h => failUnusableResponse_outcome_exc status url request tests htd h,
   fun _v hout hv => failUnusableResponse_outcome_falsy status url request tests hout hv,
   fun _v hout hv hnf =>
     failUnusableResponse_outcome_not_failed status url request tests hout hv hnf,
   fun hout h => failUnusableResponse_result_exc status url request tests hout h,
   fun _r hout hres hr =>
     failUnusableResponse_result_falsy status url request tests hout hres hr⟩

/-- Witness for C5 at a reply with truthy outcome `"success"`. -/
theorem failUnusableResponse_malformed_reply_cases_witness :
    failUnusableResponse ⟨500, some (Json.obj [("outcome", Json.str "success")])⟩
        Json.null "u" [] =
      ClassifyResult.diagError 500 "u" Json.null
        (Json.obj [("outcome", Json.str "success")]) :=
  (failUnusableResponse_malformed_reply_cases 500 "u" Json.null []
      (Json.obj [("outcome", Json.str "success")])).2.2.2.2.1
    (Json.str "success") rfl rfl rfl

/-- C6 counterexample: one submitted test, outcome `"failed"`, result
mapping with two truthy entries — more entries than tests — and the
classifier still returns without raising, so the reply is usable. -/
theorem failUnusableResponse_extra_entries_cex :
    failUnusableResponse ⟨500, some exampleReplyTwo⟩ Json.null "u" [⟨Json.null⟩] =
      ClassifyResult.usable := rfl

/-- C6 (amended): with outcome `"failed"` and a truthy result mapping, the
reply is usable iff the mapping contains at least one entry per submitted
step, the first N of them truthy; in particular a reply with fewer entries
than tests is never usable, but entries beyond the submitted tests are
ignored, so more entries than tests can still be usable. -/
theorem failUnusableResponse_usable_iff_enough_truthy (status : Nat) (url : String)
    (request : Json) (tests : List Test) (d : Json) (rkvs : List (String × Json))
    (hout : dictGetItem d "outcome" = Except.ok (Json.str "failed"))
    (hres : dictGetItem d "result" = Except.ok (Json.obj rkvs))
    (hne : truthy (Json.obj rkvs) = true) :
    failUnusableResponse ⟨status, some d⟩ request url tests = ClassifyResult.usable ↔
      (tests.length ≤ rkvs.length ∧
        ∀ i, i < tests.length →
          ∃ v, (rkvs.map Prod.snd).get? i = some v ∧ truthy v = true) := by
  rw [failUnusableResponse_failedPath status url request tests d rkvs hout hres hne]
  constructor
  · intro h
    have hloop : stepResultsLoop (rkvs.map Prod.snd) tests = Except.ok false := by
      cases hl : stepResultsLoop (rkvs.map Prod.snd) tests with
      | error e => simp [hl] at h
      | ok b =>
        cases b with
        | false => rfl
        | true => simp [hl] at h
    obtain ⟨h1, h2⟩ := (stepResultsLoop_ok_false_iff _ _).mp hloop
    exact ⟨by simpa using h1, h2⟩
  · rintro ⟨h1, h2⟩
    rw [(stepResultsLoop_ok_false_iff _ _).mpr ⟨by simpa using h1, h2⟩]

/-- Witness for C6 at a reply with exactly two truthy entries and two
submitted tests, via the backward direction. -/
theorem failUnusableResponse_usable_iff_enough_truthy_witness :
    failUnusableResponse ⟨501, some exampleReplyTwo⟩ Json.null "u"
        [⟨Json.null⟩, ⟨Json.null⟩] = ClassifyResult.usable :=
  (failUnusableResponse_usable_iff_enough_truthy 501 "u" Json.null
      [⟨Json.null⟩, ⟨Json.null⟩] exampleReplyTwo
      [("step-1", Json.num 1), ("step-2", Json.num 2)] rfl rfl rfl).mpr
    ⟨by decide, by
      intro i hi
      simp only [List.length_cons, List.length_nil] at hi
      interval_cases i
      · exact ⟨Json.num 1, rfl, rfl⟩
      · exact ⟨Json.num 2, rfl, rfl⟩⟩

end DmrProbe
